import Mathlib

/-!
Verification of the gocryptfs-manager volume lifecycle controller (`app.py`).

The Python source is shallowly embedded below.  Strings are Lean `String`s
(lists of characters); the handful of Python string primitives the source
uses (`str.strip`, `str.split`, `str.splitlines`, `str.rstrip("/")`,
truthy-`or` on strings, `os.path.join`) are modelled explicitly.  All
filesystem / subprocess effects are captured by environment records whose
fields are the oracles the code consults (`os.path.exists`, `shutil.which`,
`os.path.realpath`, the mount-table file contents, and the
exit-code/stdout/stderr triple produced by a spawned process).
-/

namespace GocryptfsManager

/-- Python `str.isspace` characters that matter for ASCII input: the set
`str.strip()` removes from both ends (space, tab, LF, CR, VT, FF). -/
def isPySpace (c : Char) : Bool :=
  c = ' ' || c = '\t' || c = '\n' || c = '\r' || c = '\x0b' || c = '\x0c'

/-- Python `str.strip()`: drop leading and trailing whitespace. -/
def pyStrip (s : String) : String :=
  String.mk (((s.data.dropWhile isPySpace).reverse.dropWhile isPySpace).reverse)

/-- Python `str.rstrip("/")`: drop trailing slashes. -/
def rstripSlash (s : String) : String :=
  String.mk ((s.data.reverse.dropWhile (fun c => c = '/')).reverse)

/-- Python `a or b` for strings: `b` when `a` is empty (falsy), else `a`. -/
def pyOrStr (a b : String) : String :=
  if a = "" then b else a

/-- Python `os.path.join(a, b)` for a non-absolute `b` (the only use in the
source joins a directory with the file name `"gocryptfs.conf"`). -/
def pyJoin (a b : String) : String :=
  if a = "" then b
  else if a.data.getLast? = some '/' then a ++ b
  else a ++ "/" ++ b

/-- Accumulator pass for Python `str.split()` (no separator argument):
maximal runs of non-whitespace characters. -/
def pySplitAux : List Char → List Char → List (List Char)
  | acc, [] => if acc.isEmpty then [] else [acc.reverse]
  | acc, c :: rest =>
    if isPySpace c then
      if acc.isEmpty then pySplitAux [] rest else acc.reverse :: pySplitAux [] rest
    else pySplitAux (c :: acc) rest

/-- Python `str.split()`: whitespace-delimited fields, empties discarded. -/
def pySplit (s : String) : List String :=
  (pySplitAux [] s.data).map String.mk

/-- Accumulator pass for Python `str.splitlines()` (LF line breaks, which is
what the tools in this program emit): no trailing empty line. -/
def pySplitlinesAux : List Char → List Char → List String
  | acc, [] => if acc.isEmpty then [] else [String.mk acc.reverse]
  | acc, c :: rest =>
    if c = '\n' then String.mk acc.reverse :: pySplitlinesAux [] rest
    else pySplitlinesAux (c :: acc) rest

/-- Python `str.splitlines()`. -/
def pySplitlines (s : String) : List String :=
  pySplitlinesAux [] s.data

/-- Python `needle in haystack` on character lists. -/
def listHasInfix (pat : List Char) : List Char → Bool
  | [] => pat.isPrefixOf []
  | c :: rest => pat.isPrefixOf (c :: rest) || listHasInfix pat (rest)

/-- Python `"busy" in err.lower()` (ASCII lowering, which covers the tool
diagnostics this program inspects). -/
def containsBusy (e : String) : Bool :=
  listHasInfix "busy".data (e.data.map Char.toLower)

/-- `app.py` `_is_abs_path`: strip, then require non-empty, POSIX-absolute
(`os.path.isabs` = leading slash) and free of NUL bytes. -/
def _is_abs_path (path : String) : Bool :=
  let p := (pyStrip path).data
  !p.isEmpty && p.head? == some '/' && !p.contains '\x00'

/-- An octal digit, as in the pattern group `([0-7]{3})`. -/
def isOctDigit (c : Char) : Bool :=
  '0' ≤ c && c ≤ '7'

/-- Python `int(<three octal digit chars>, 8)`. -/
def octVal (d1 d2 d3 : Char) : Nat :=
  ((d1.toNat - 48) * 8 + (d2.toNat - 48)) * 8 + (d3.toNat - 48)

/-- `app.py` `_unescape_mount_path` scanning pass, following
`re.sub(r"\\([0-7]{3})", repl, path)`: at each position, a backslash
followed by three octal digits is replaced (non-overlapping, left to
right) by `chr(int(digits, 8))`; `repl`'s `except ValueError` branch — hit
only when `chr` rejects the code point, i.e. above `0x10FFFF` — keeps the
matched text unchanged. -/
def unescapeAux : List Char → List Char
  | '\\' :: d1 :: d2 :: d3 :: rest =>
    if isOctDigit d1 && isOctDigit d2 && isOctDigit d3 then
      if octVal d1 d2 d3 ≤ 0x10FFFF then
        Char.ofNat (octVal d1 d2 d3) :: unescapeAux rest
      else
        '\\' :: d1 :: d2 :: d3 :: unescapeAux rest
    else '\\' :: unescapeAux (d1 :: d2 :: d3 :: rest)
  | c :: rest => c :: unescapeAux rest
  | [] => []

/-- `app.py` `_unescape_mount_path`. -/
def _unescape_mount_path (path : String) : String :=
  String.mk (unescapeAux path.data)

/-- The same scanning pass with the `ValueError` fallback branch removed:
every matched group is decoded unconditionally. -/
def unescapeAuxNF : List Char → List Char
  | '\\' :: d1 :: d2 :: d3 :: rest =>
    if isOctDigit d1 && isOctDigit d2 && isOctDigit d3 then
      Char.ofNat (octVal d1 d2 d3) :: unescapeAuxNF rest
    else '\\' :: unescapeAuxNF (d1 :: d2 :: d3 :: rest)
  | c :: rest => c :: unescapeAuxNF rest
  | [] => []

/-- Does the list contain, at any position, a backslash followed by three
octal digits (an occurrence of the substitution pattern)? -/
def hasOctSeq : List Char → Bool
  | '\\' :: d1 :: d2 :: d3 :: rest =>
    (isOctDigit d1 && isOctDigit d2 && isOctDigit d3) || hasOctSeq (d1 :: d2 :: d3 :: rest)
  | _ :: rest => hasOctSeq rest
  | [] => false

/-- Three-octal-digit encoding of a byte value, e.g. `32 ↦ "040"`. -/
def octEncode3 (n : Nat) : List Char :=
  [Char.ofNat (48 + n / 64), Char.ofNat (48 + n / 8 % 8), Char.ofNat (48 + n % 8)]

/-! ## The mount table oracle (`_is_mounted`) -/

/-- The host state `_is_mounted` consults: whether `findmnt` is on the
`PATH` (`shutil.which`), the exit code and stdout `findmnt -rno TARGET
--target <path>` would produce, the line contents of
`/proc/self/mountinfo` and `/proc/mounts` (`none` = `open` raises
`OSError`), and `os.path.realpath`. -/
structure OracleEnv where
  findmntAvail : Bool
  findmntRun : String → Int × String
  mountinfo : Option (List String)
  mounts : Option (List String)
  realpath : String → String

/-- One line of `/proc/self/mountinfo`: mount point is the 5th
whitespace-delimited field (`parts[4]`), octal-unescaped, canonicalized,
compared with the canonicalized query. -/
def infoLineHit (env : OracleEnv) (mp : String) (line : String) : Bool :=
  match (pySplit line).get? 4 with
  | some f => rstripSlash (env.realpath (_unescape_mount_path f)) == mp
  | none => false

/-- One line of `/proc/mounts`: mount point is the 2nd field (`parts[1]`). -/
def mountsLineHit (env : OracleEnv) (mp : String) (line : String) : Bool :=
  match (pySplit line).get? 1 with
  | some f => rstripSlash (env.realpath (_unescape_mount_path f)) == mp
  | none => false

/-- The `/proc/mounts` scan at the end of `_is_mounted`: `False` when the
file is unreadable, otherwise whether any line's 2nd field matches. -/
def scanMounts (env : OracleEnv) (mp : String) : Bool :=
  match env.mounts with
  | none => false
  | some lines => lines.any (mountsLineHit env mp)

/-- The `findmnt` branch of `_is_mounted`: only conclusive (`true`) when the
tool is available, exits 0, and lists a canonicalized target equal to the
canonicalized query. -/
def findmntHit (env : OracleEnv) (mp : String) : Bool :=
  if env.findmntAvail then
    let r := env.findmntRun mp
    if r.1 = 0 then
      (((pySplitlines r.2).filter (fun t => pyStrip t ≠ "")).map
        (fun t => rstripSlash (env.realpath t))).contains mp
    else false
  else false

/-- `app.py` `_is_mounted`: canonicalize the query, try `findmnt`, then
`/proc/self/mountinfo` (5th field; an `OSError` reading it returns `False`
immediately), then `/proc/mounts` (2nd field). -/
def _is_mounted (env : OracleEnv) (mount_path : String) : Bool :=
  let mp := rstripSlash (env.realpath (pyStrip mount_path))
  if findmntHit env mp then true
  else
    match env.mountinfo with
    | none => false
    | some lines =>
      if lines.any (infoLineHit env mp) then true
      else scanMounts env mp

/-! ## The idle-timeout validator (`_validate_duration`) -/

/-- A duration unit character, the class `[smhd]`. -/
def isDurUnit (c : Char) : Bool :=
  c = 's' || c = 'm' || c = 'h' || c = 'd'

/-- Match the regex piece `\d+(?:\.\d+)?` at the head of the list,
returning the unconsumed remainder.  Because a digit run is terminated
only by a non-digit, and a lone trailing `.` can never be followed by a
unit, this deterministic match coincides with the backtracking regex. -/
def matchNum (l : List Char) : Option (List Char) :=
  let ds := l.takeWhile Char.isDigit
  let rest := l.dropWhile Char.isDigit
  if ds.isEmpty then none
  else
    match rest with
    | c :: r2 =>
      if c = '.' then
        if (r2.takeWhile Char.isDigit).isEmpty then none
        else some (r2.dropWhile Char.isDigit)
      else some (c :: r2)
    | [] => some []

/-- Match one `\d+(?:\.\d+)?[smhd]` group at the head of the list. -/
def matchGroup (l : List Char) : Option (List Char) :=
  match matchNum l with
  | none => none
  | some (u :: r) => if isDurUnit u then some r else none
  | some [] => none

/-- Match one or more groups consuming the whole list (`re.fullmatch` of
`\d+(?:\.\d+)?[smhd](?:\d+(?:\.\d+)?[smhd])*`).  Fuel-indexed: each group
consumes at least two characters, so `l.length` fuel always suffices. -/
def matchGroupsFuel : Nat → List Char → Bool
  | 0, _ => false
  | n + 1, l =>
    match matchGroup l with
    | none => false
    | some [] => true
    | some (c :: r) => matchGroupsFuel n (c :: r)

/-- `app.py` `_validate_duration`: the literal `"0"`, or a full match of
the duration regex. -/
def _validate_duration (value : String) : Bool :=
  value == "0" || matchGroupsFuel value.data.length value.data

/-! ## Requests, results and the system environment -/

/-- `InitRequest` (pydantic model). -/
structure InitRequest where
  enc_path : String
  password : String
  password_confirm : String

/-- The `auth_mode` literal type of `MountRequest`. -/
inductive AuthMode
  | password
  | masterkey
deriving DecidableEq, Repr

/-- `MountRequest` (pydantic model). -/
structure MountRequest where
  enc_path : String
  mount_path : String
  auth_mode : AuthMode := AuthMode.password
  password : String := ""
  master_key : String := ""
  read_only : Bool := false
  allow_other : Bool := false
  sharedstorage : Bool := false
  reverse : Bool := false
  aessiv : Bool := false
  plaintextnames : Bool := false
  xchacha : Bool := false
  idle_timeout : String := ""
  kernel_options : String := ""

/-- `UnmountRequest` (pydantic model). -/
structure UnmountRequest where
  mount_path : String

/-- `InfoRequest` (pydantic model). -/
structure InfoRequest where
  enc_path : String

/-- The JSON payload a handler returns: `ok`, and the `error` / `output` /
`master_key` fields (absent keys modelled as `""` / `none`). -/
structure Result where
  ok : Bool
  error : String := ""
  output : String := ""
  master_key : Option String := none
deriving DecidableEq, Repr

/-- What `_run_command` returns: exit code, decoded stdout, decoded stderr. -/
structure RunOut where
  code : Int
  stdout : String
  stderr : String

/-- The host state the four handlers consult: `os.path.exists`,
`_is_dir_empty`, `shutil.which` availability per tool name, the mount
table oracle state at the pre-check and (for unmount's re-query) at the
post-check, and the behaviour of `_run_command` as a function of the
argument vector and the stdin payload. -/
structure SysEnv where
  pathExists : String → Bool
  dirEmpty : String → Bool
  toolAvail : String → Bool
  oraclePre : OracleEnv
  oraclePost : OracleEnv
  run : List String → String → RunOut

/-! ## Command builders (argument vector + stdin payload) -/

/-- Init argument vector: `["gocryptfs", "-init", enc_path]` (the handler
has already stripped `enc_path`). -/
def init_cmd (req : InitRequest) : List String :=
  ["gocryptfs", "-init", pyStrip req.enc_path]

/-- Init stdin payload: password, newline, confirmation, newline. -/
def init_stdin (req : InitRequest) : String :=
  req.password ++ "\n" ++ req.password_confirm ++ "\n"

/-- Mount argument vector, built exactly as the sequential `cmd.append` /
`cmd +=` statements of `mount_folder` build it. -/
def mount_cmd (req : MountRequest) : List String :=
  let cmd0 := ["gocryptfs"]
  let cmd1 := if req.read_only then cmd0 ++ ["-ro"] else cmd0
  let cmd2 := if req.allow_other then cmd1 ++ ["-allow_other"] else cmd1
  let cmd3 := if req.sharedstorage then cmd2 ++ ["-sharedstorage"] else cmd2
  let cmd4 := if req.reverse then cmd3 ++ ["-reverse"] else cmd3
  let cmd5 := if req.aessiv then cmd4 ++ ["-aessiv"] else cmd4
  let cmd6 := if req.plaintextnames then cmd5 ++ ["-plaintextnames"] else cmd5
  let cmd7 := if req.xchacha then cmd6 ++ ["-xchacha"] else cmd6
  let cmd8 :=
    if pyStrip req.idle_timeout ≠ "" then cmd7 ++ ["-idle", pyStrip req.idle_timeout] else cmd7
  let cmd9 :=
    if pyStrip req.kernel_options ≠ "" then cmd8 ++ ["-ko", pyStrip req.kernel_options] else cmd8
  let cmd10 := if req.auth_mode = AuthMode.masterkey then cmd9 ++ ["-masterkey=stdin"] else cmd9
  cmd10 ++ [pyStrip req.enc_path, pyStrip req.mount_path]

/-- Mount stdin payload: the password (password mode) or the stripped
master key (raw-key mode), followed by a newline. -/
def mount_stdin (req : MountRequest) : String :=
  if req.auth_mode = AuthMode.password then req.password ++ "\n"
  else pyStrip req.master_key ++ "\n"

/-- Info argument vector: `["gocryptfs", "-info", enc_path]`. -/
def info_cmd (enc : String) : List String :=
  ["gocryptfs", "-info", enc]

/-- Unmount argument vector: `["fusermount", "-u", mount_path]`. -/
def unmount_cmd (mp : String) : List String :=
  ["fusermount", "-u", mp]

/-! ## Result interpretation -/

/-- `app.py` `_extract_master_key`: the first line of the output containing
`"MasterKey"`, stripped. -/
def _extract_master_key (output : String) : Option String :=
  ((pySplitlines output).find? (fun line => listHasInfix "MasterKey".data line.data)).map pyStrip

/-- Interpretation of the `gocryptfs -init` run (lines 570-575): on
non-zero exit, error is stripped stderr, else stripped stdout, else the
generic message; on success, extract the master key line. -/
def init_interpret (r : RunOut) : Result :=
  let output := pyStrip r.stdout
  if r.code ≠ 0 then
    { ok := false, error := pyOrStr (pyStrip r.stderr) (pyOrStr output "Initialization failed."),
      output := output }
  else
    { ok := true, output := output, master_key := _extract_master_key output }

/-- Interpretation of the `gocryptfs` mount run (lines 636-642): on
non-zero exit, error is stripped stderr or the generic message (stdout is
not consulted). -/
def mount_interpret (r : RunOut) : Result :=
  let output := pyStrip r.stdout
  if r.code ≠ 0 then
    { ok := false, error := pyOrStr (pyStrip r.stderr) "Mount failed.", output := "" }
  else
    { ok := true, output := pyOrStr output "Mounted successfully." }

/-- Interpretation of the `gocryptfs -info` run (lines 659-663): on
non-zero exit, error is stripped stderr or the generic message (stdout is
not consulted for the error, though it is returned as `output`). -/
def info_interpret (r : RunOut) : Result :=
  let output := pyStrip r.stdout
  if r.code ≠ 0 then
    { ok := false, error := pyOrStr (pyStrip r.stderr) "Failed to read config info.",
      output := output }
  else
    { ok := true, output := pyOrStr output "No output from gocryptfs -info." }

/-- Interpretation of the `fusermount -u` run's failure side (lines
682-686): stripped stderr, else stripped stdout, else the generic message,
then the "busy" reclassification. -/
def unmount_fail_error (r : RunOut) : String :=
  let output := pyStrip r.stdout
  let err := pyOrStr (pyStrip r.stderr) (pyOrStr output "Unmount failed.")
  if containsBusy err then "Unmount failed: mount point is busy (files in use)." else err

/-! ## The four handlers -/

/-- `app.py` `init_folder` (`POST /api/init`). -/
def init_folder (env : SysEnv) (req : InitRequest) : Result :=
  let enc := pyStrip req.enc_path
  if !_is_abs_path enc then
    { ok := false, error := "Encrypted folder path must be an absolute path." }
  else if req.password ≠ req.password_confirm then
    { ok := false, error := "Passwords do not match." }
  else if env.pathExists enc && env.pathExists (pyJoin enc "gocryptfs.conf") then
    { ok := false, error := "Encrypted folder already initialized." }
  else if env.pathExists enc && !env.dirEmpty enc then
    { ok := false, error := "Encrypted folder exists and is not empty." }
  else if !env.toolAvail "gocryptfs" then
    { ok := false, error := "gocryptfs is not installed or not in PATH." }
  else
    init_interpret (env.run (init_cmd req) (init_stdin req))

/-- `app.py` `mount_folder` (`POST /api/mount`). -/
def mount_folder (env : SysEnv) (req : MountRequest) : Result :=
  let enc := pyStrip req.enc_path
  let mp := pyStrip req.mount_path
  if !(_is_abs_path enc && _is_abs_path mp) then
    { ok := false, error := "Paths must be absolute." }
  else if !env.pathExists enc then
    { ok := false, error := "Encrypted folder does not exist." }
  else if !env.pathExists mp then
    { ok := false, error := "Mount point does not exist." }
  else if !env.dirEmpty mp then
    { ok := false, error := "Mount point is not empty." }
  else if _is_mounted env.oraclePre mp then
    { ok := false, error := "Mount point is already mounted." }
  else if req.auth_mode = AuthMode.password && !env.pathExists (pyJoin enc "gocryptfs.conf") then
    { ok := false, error := "Encrypted folder is not initialized." }
  else if !env.toolAvail "gocryptfs" then
    { ok := false, error := "gocryptfs is not installed or not in PATH." }
  else if req.auth_mode = AuthMode.password && req.password = "" then
    { ok := false, error := "Password is required for password unlock mode." }
  else if req.auth_mode = AuthMode.masterkey && pyStrip req.master_key = "" then
    { ok := false, error := "Master key is required for master-key unlock mode." }
  else if pyStrip req.idle_timeout ≠ "" && !_validate_duration (pyStrip req.idle_timeout) then
    { ok := false, error := "Idle timeout format is invalid. Use values like '30m' or '2h45m'." }
  else
    mount_interpret (env.run (mount_cmd req) (mount_stdin req))

/-- `app.py` `info_folder` (`POST /api/info`). -/
def info_folder (env : SysEnv) (req : InfoRequest) : Result :=
  let enc := pyStrip req.enc_path
  if !_is_abs_path enc then
    { ok := false, error := "Encrypted folder path must be absolute." }
  else if !env.pathExists enc then
    { ok := false, error := "Encrypted folder does not exist." }
  else if !env.pathExists (pyJoin enc "gocryptfs.conf") then
    { ok := false, error := "No gocryptfs.conf found in encrypted folder." }
  else if !env.toolAvail "gocryptfs" then
    { ok := false, error := "gocryptfs is not installed or not in PATH." }
  else
    info_interpret (env.run (info_cmd enc) "")

/-- `app.py` `unmount_folder` (`POST /api/unmount`). -/
def unmount_folder (env : SysEnv) (req : UnmountRequest) : Result :=
  let mp := pyStrip req.mount_path
  if !_is_abs_path mp then
    { ok := false, error := "Mount point path must be absolute." }
  else if !env.pathExists mp then
    { ok := false, error := "Mount point does not exist." }
  else if !_is_mounted env.oraclePre mp then
    { ok := false, error := "Mount point is not mounted." }
  else if !env.toolAvail "fusermount" then
    { ok := false, error := "fusermount is not installed or not in PATH." }
  else
    let r := env.run (unmount_cmd mp) ""
    let output := pyStrip r.stdout
    if r.code ≠ 0 then
      { ok := false, error := unmount_fail_error r, output := "" }
    else if _is_mounted env.oraclePost mp then
      { ok := false, error := "Unmount failed: mount point is still mounted.", output := "" }
    else
      { ok := true, output := pyOrStr output "Unmounted successfully." }

/-! ## Spec-level characterizations used by the claims -/

/-- The duration grammar's `<number>`: a non-empty digit string, or a
non-empty digit string, a dot, and a non-empty digit string. -/
def IsNum (l : List Char) : Prop :=
  (l ≠ [] ∧ ∀ c ∈ l, c.isDigit) ∨
  (∃ a b, a ≠ [] ∧ b ≠ [] ∧ (∀ c ∈ a, c.isDigit) ∧ (∀ c ∈ b, c.isDigit) ∧
    l = a ++ '.' :: b)

/-- The duration grammar's `<number><unit>` group. -/
def IsGroup (l : List Char) : Prop :=
  ∃ n u, IsNum n ∧ isDurUnit u = true ∧ l = n ++ [u]

/-- The duration grammar of the spec: the literal `"0"`, or one or more
groups concatenated with no separator. -/
def DurGrammar (s : String) : Prop :=
  s = "0" ∨ ∃ gs : List (List Char), gs ≠ [] ∧ (∀ g ∈ gs, IsGroup g) ∧ s.data = gs.flatten

/-- First-failure-wins check sequencing: the error message of the first
check whose condition (a failure condition) holds. -/
def firstSome : List (Bool × String) → Option String
  | [] => none
  | (b, e) :: rest => if b then some e else firstSome rest

/-- The Init precondition checks in the order the code runs them:
path validity, password confirmation, then (for an existing path) the
marker check and the emptiness check, then tool availability. -/
def init_checks_code (env : SysEnv) (req : InitRequest) : Option String :=
  let enc := pyStrip req.enc_path
  firstSome
    [ (!_is_abs_path enc, "Encrypted folder path must be an absolute path."),
      (req.password != req.password_confirm, "Passwords do not match."),
      (env.pathExists enc && env.pathExists (pyJoin enc "gocryptfs.conf"),
        "Encrypted folder already initialized."),
      (env.pathExists enc && !env.dirEmpty enc, "Encrypted folder exists and is not empty."),
      (!env.toolAvail "gocryptfs", "gocryptfs is not installed or not in PATH.") ]

/-- The Init precondition checks in the order claim C4 states them:
path validity, then the marker and emptiness checks for an existing path,
then password confirmation, then tool availability.  (Transcribed from the
claim's words, for comparison with the code's order.) -/
def init_checks_claimed (env : SysEnv) (req : InitRequest) : Option String :=
  let enc := pyStrip req.enc_path
  firstSome
    [ (!_is_abs_path enc, "Encrypted folder path must be an absolute path."),
      (env.pathExists enc && env.pathExists (pyJoin enc "gocryptfs.conf"),
        "Encrypted folder already initialized."),
      (env.pathExists enc && !env.dirEmpty enc, "Encrypted folder exists and is not empty."),
      (req.password != req.password_confirm, "Passwords do not match."),
      (!env.toolAvail "gocryptfs", "gocryptfs is not installed or not in PATH.") ]

/-- The error-preference chain claim C5 asserts for every operation:
trimmed stderr when non-empty, else (trimmed) stdout, else the generic
per-operation message.  (Transcribed from the claim's words.) -/
def claimed_error_chain (r : RunOut) (generic : String) : String :=
  pyOrStr (pyStrip r.stderr) (pyOrStr (pyStrip r.stdout) generic)

/-! ## Concrete host states used as witnesses and counterexamples -/

/-- A mount-table oracle state with empty (but readable) tables and
identity canonicalization. -/
def emptyOracle : OracleEnv :=
  { findmntAvail := false, findmntRun := fun _ => (1, ""),
    mountinfo := some [], mounts := some [], realpath := fun s => s }

/-- A host state where every path exists as an empty directory, every tool
is installed, nothing is mounted, and every spawned process succeeds
silently. -/
def benignEnv : SysEnv :=
  { pathExists := fun _ => true, dirEmpty := fun _ => true, toolAvail := fun _ => true,
    oraclePre := emptyOracle, oraclePost := emptyOracle,
    run := fun _ _ => ⟨0, "", ""⟩ }

/-- Claim C4's counterexample input: an existing, already-initialized
volume path (under `benignEnv`) together with mismatched passwords. -/
def reqC4 : InitRequest :=
  { enc_path := "/vol", password := "a", password_confirm := "b" }

/-- Claim C5's counterexample host: a well-formed mount request's external
process exits 1 with empty stderr and non-empty stdout. -/
def envC5 : SysEnv :=
  { pathExists := fun _ => true, dirEmpty := fun _ => true, toolAvail := fun _ => true,
    oraclePre := emptyOracle, oraclePost := emptyOracle,
    run := fun _ _ => ⟨1, "boom", ""⟩ }

/-- Claim C5's counterexample request. -/
def reqC5 : MountRequest :=
  { enc_path := "/enc", mount_path := "/mnt", password := "pw" }

/-- A mount-table oracle state reporting `/m` mounted via the
`/proc/self/mountinfo` source (5th field), both before and after the
helper runs. -/
def stillMountedOracle : OracleEnv :=
  { findmntAvail := false, findmntRun := fun _ => (1, ""),
    mountinfo := some ["36 25 0:33 / /m rw shared:1"], mounts := some [],
    realpath := fun s => s }

/-- Claim C2's witness host: `/m` exists, `fusermount` is installed, the
helper exits zero, and the oracle reports `/m` mounted before and after. -/
def envC2 : SysEnv :=
  { pathExists := fun _ => true, dirEmpty := fun _ => true, toolAvail := fun _ => true,
    oraclePre := stillMountedOracle, oraclePost := stillMountedOracle,
    run := fun _ _ => ⟨0, "", ""⟩ }

/-- Claim C3's counterexample oracle state: `findmnt` absent,
`/proc/self/mountinfo` unreadable, `/proc/mounts` readable and listing
`/m` as a mount point. -/
def oC3 : OracleEnv :=
  { findmntAvail := false, findmntRun := fun _ => (1, ""),
    mountinfo := none, mounts := some ["/dev/sda1 /m ext4 rw 0 0"],
    realpath := fun s => s }

/-- Claim C9's oracle state: a synthetic `/proc/self/mountinfo` line whose
5th field encodes the space of `/tmp/my mount` as the octal escape
`\040`. -/
def oC9 : OracleEnv :=
  { findmntAvail := false, findmntRun := fun _ => (1, ""),
    mountinfo := some ["36 25 0:33 / /tmp/my\\040mount rw shared:1"], mounts := some [],
    realpath := fun s => s }

/-! ## Claim theorems -/

/-- Claim C1: For every Init and Mount request that reaches the Command Builder,
the secret (password or raw key) appears only in the standard-input
payload and never as an element of the argument vector: two Mount requests
that differ only in their secret fields produce identical argument
vectors, two Init requests that differ only in their password fields
produce identical argument vectors, and the secrets go to the stdin
payloads. -/
theorem secret_only_on_stdin :
    (∀ (r : MountRequest) (p k : String),
      mount_cmd { r with password := p, master_key := k } = mount_cmd r) ∧
    (∀ (i : InitRequest) (q q' : String),
      init_cmd { i with password := q, password_confirm := q' } = init_cmd i) ∧
    (∀ r : MountRequest, mount_stdin r =
      (if r.auth_mode = AuthMode.password then r.password else pyStrip r.master_key) ++ "\n") ∧
    (∀ i : InitRequest, init_stdin i = i.password ++ "\n" ++ i.password_confirm ++ "\n") := by
  refine ⟨fun r p k => rfl, fun i q q' => rfl, fun r => ?_, fun i => rfl⟩
  unfold mount_stdin
  split <;> rfl

/-- Pushing a conditional append to the right: used to flatten the
sequential construction of `mount_cmd`. -/
theorem ite_append_right (b : Prop) [Decidable b] (l x : List String) :
    (if b then l ++ x else l) = l ++ (if b then x else []) := by
  split <;> simp

/-- Claim C7: The Mount argument vector is built in a fixed deterministic order:
boolean-option flags in the order `-ro`, `-allow_other`,
`-sharedstorage`, `-reverse`, `-aessiv`, `-plaintextnames`, `-xchacha`;
then `-idle <value>` if supplied; then `-ko <value>` if supplied; then
`-masterkey=stdin` only in raw-key mode; then the volume path and the
mount path, in that order. -/
theorem mount_cmd_order (req : MountRequest) :
    mount_cmd req =
      ["gocryptfs"]
      ++ (if req.read_only then ["-ro"] else [])
      ++ (if req.allow_other then ["-allow_other"] else [])
      ++ (if req.sharedstorage then ["-sharedstorage"] else [])
      ++ (if req.reverse then ["-reverse"] else [])
      ++ (if req.aessiv then ["-aessiv"] else [])
      ++ (if req.plaintextnames then ["-plaintextnames"] else [])
      ++ (if req.xchacha then ["-xchacha"] else [])
      ++ (if pyStrip req.idle_timeout ≠ "" then ["-idle", pyStrip req.idle_timeout] else [])
      ++ (if pyStrip req.kernel_options ≠ "" then ["-ko", pyStrip req.kernel_options] else [])
      ++ (if req.auth_mode = AuthMode.masterkey then ["-masterkey=stdin"] else [])
      ++ [pyStrip req.enc_path, pyStrip req.mount_path] := by
  unfold mount_cmd
  simp only [ite_append_right]

/-- Claim C4 is false on the code: with an existing already-initialized volume
path and mismatched passwords, the claimed order surfaces "already
initialized", but `init_folder` surfaces "Passwords do not match." —
the password-confirmation check runs before the existence checks. -/
theorem init_order_counterexample :
    (init_folder benignEnv reqC4).error = "Passwords do not match." ∧
    init_checks_claimed benignEnv reqC4 = some "Encrypted folder already initialized." ∧
    (init_folder benignEnv reqC4).error ≠ "Encrypted folder already initialized." := by
  decide

/-- Claim C4 (amended): the Init precondition checks run in this exact order
with the first failure winning: path validation; then
password-confirmation equality; then, if the volume path exists, the
"already initialized" marker check followed by the "exists and is not
empty" check; then external tool availability — and when no check fails,
the handler proceeds to the external invocation. -/
theorem init_checks_code_order (env : SysEnv) (req : InitRequest) :
    init_folder env req =
      match init_checks_code env req with
      | some e => { ok := false, error := e }
      | none => init_interpret (env.run (init_cmd req) (init_stdin req)) := by
  unfold init_folder init_checks_code
  by_cases h1 : _is_abs_path (pyStrip req.enc_path) <;>
    by_cases h2 : req.password = req.password_confirm <;>
      by_cases hp : env.pathExists (pyStrip req.enc_path) <;>
        by_cases hc : env.pathExists (pyJoin (pyStrip req.enc_path) "gocryptfs.conf") <;>
          by_cases hd : env.dirEmpty (pyStrip req.enc_path) <;>
            by_cases ht : env.toolAvail "gocryptfs" <;>
              simp [firstSome, h1, h2, hp, hc, hd, ht, bne_iff_ne]

/-- Claim C5 is false on the code: for a Mount whose process exits non-zero with
empty stderr and stdout "boom", the claimed chain would surface "boom",
but `mount_folder` surfaces the generic "Mount failed." — Mount (and
Info) never fall back to standard output. -/
theorem mount_error_ignores_stdout :
    (mount_folder envC5 reqC5).error = "Mount failed." ∧
    claimed_error_chain ⟨1, "boom", ""⟩ "Mount failed." = "boom" ∧
    (mount_folder envC5 reqC5).error ≠ claimed_error_chain ⟨1, "boom", ""⟩ "Mount failed." := by
  decide

/-- Claim C5 (amended): on a non-zero exit, Init and Unmount surface the trimmed
stderr when non-empty, else the trimmed stdout, else the generic message
(Unmount additionally reclassifies "busy" texts); Mount and Info surface
the trimmed stderr when non-empty and otherwise go straight to the
generic message, never consulting stdout. -/
theorem error_text_preference (r : RunOut) (hc : r.code ≠ 0) :
    (pyStrip r.stderr ≠ "" →
      (init_interpret r).error = pyStrip r.stderr ∧
      (mount_interpret r).error = pyStrip r.stderr ∧
      (info_interpret r).error = pyStrip r.stderr ∧
      (containsBusy (pyStrip r.stderr) = false → unmount_fail_error r = pyStrip r.stderr)) ∧
    (pyStrip r.stderr = "" → pyStrip r.stdout ≠ "" →
      (init_interpret r).error = pyStrip r.stdout ∧
      (mount_interpret r).error = "Mount failed." ∧
      (info_interpret r).error = "Failed to read config info." ∧
      (containsBusy (pyStrip r.stdout) = false → unmount_fail_error r = pyStrip r.stdout)) ∧
    (pyStrip r.stderr = "" → pyStrip r.stdout = "" →
      (init_interpret r).error = "Initialization failed." ∧
      (mount_interpret r).error = "Mount failed." ∧
      (info_interpret r).error = "Failed to read config info." ∧
      unmount_fail_error r = "Unmount failed.") := by
  unfold init_interpret mount_interpret info_interpret unmount_fail_error pyOrStr
  refine ⟨fun he => ?_, fun he ho => ?_, fun he ho => ?_⟩
  · simp [he, hc]
    intro hb
    simp [hb]
  · simp [he, ho, hc]
    intro hb
    simp [hb]
  · simp [he, ho, hc]
    decide

/-- Witness for the amended C5 at a concrete run result. -/
theorem error_text_preference_witness :
    (init_interpret ⟨1, "out", " err "⟩).error = "err" ∧
    (mount_interpret ⟨1, "out", " err "⟩).error = "err" := by
  have h := error_text_preference ⟨1, "out", " err "⟩ (by decide)
  have h2 := h.1 (by decide)
  exact ⟨h2.1, h2.2.1⟩

/-- Claim C2: For every Unmount request that passes its preconditions, if the
unmount helper exits zero but the re-queried Mount Table Oracle still
reports the path mounted, the result is `ok = false` with the "still
mounted" message; and in general a zero exit code alone never yields
success — success additionally requires the re-query to report the path
unmounted. -/
theorem unmount_zero_exit_not_trusted (env : SysEnv) (req : UnmountRequest) :
    (_is_abs_path (pyStrip req.mount_path) = true →
      env.pathExists (pyStrip req.mount_path) = true →
      _is_mounted env.oraclePre (pyStrip req.mount_path) = true →
      env.toolAvail "fusermount" = true →
      (env.run (unmount_cmd (pyStrip req.mount_path)) "").code = 0 →
      _is_mounted env.oraclePost (pyStrip req.mount_path) = true →
      unmount_folder env req =
        { ok := false, error := "Unmount failed: mount point is still mounted.", output := "" }) ∧
    ((unmount_folder env req).ok = true →
      _is_mounted env.oraclePost (pyStrip req.mount_path) = false) := by
  constructor
  · intro habs hex hpre htool hcode hpost
    unfold unmount_folder
    simp [habs, hex, hpre, htool, hcode, hpost]
  · intro hok
    unfold unmount_folder at hok
    by_cases habs : _is_abs_path (pyStrip req.mount_path) <;> simp [habs] at hok
    by_cases hex : env.pathExists (pyStrip req.mount_path) <;> simp [hex] at hok
    by_cases hpre : _is_mounted env.oraclePre (pyStrip req.mount_path) <;> simp [hpre] at hok
    by_cases htool : env.toolAvail "fusermount" <;> simp [htool] at hok
    by_cases hcode : (env.run (unmount_cmd (pyStrip req.mount_path)) "").code = 0 <;>
      simp [hcode] at hok
    by_cases hpost : _is_mounted env.oraclePost (pyStrip req.mount_path) <;>
      simp [hpost] at hok ⊢

/-- Witness for C2 at a concrete host state. -/
theorem unmount_zero_exit_not_trusted_witness :
    unmount_folder envC2 ⟨"/m"⟩ =
      { ok := false, error := "Unmount failed: mount point is still mounted.", output := "" } :=
  (unmount_zero_exit_not_trusted envC2 ⟨"/m"⟩).1 (by decide) (by decide) (by decide) (by decide)
    (by decide) (by decide)

/-- Claim C3 is false on the code: when the 5th-column kernel source is
unreadable, `_is_mounted` returns `false` immediately even though the
legacy 2nd-column source is readable and reports the path mounted — the
next source is not consulted. -/
theorem unreadable_mountinfo_skips_legacy :
    _is_mounted oC3 "/m" = false ∧ scanMounts oC3 "/m" = true := by
  decide

/-- Claim C3 (amended): `_is_mounted` is a total function; an unavailable or
inconclusive mount-query tool is skipped and the 5th-column kernel source
consulted; a readable 5th-column source with no match falls through to
the legacy 2nd-column source; but an unreadable 5th-column source yields
`false` immediately, without consulting the legacy source; and when all
sources are unavailable the result is `false`. -/
theorem is_mounted_source_order (env : OracleEnv) (p : String) :
    (env.mountinfo = none →
      findmntHit env (rstripSlash (env.realpath (pyStrip p))) = false →
      _is_mounted env p = false) ∧
    (env.findmntAvail = false → env.mountinfo = none → env.mounts = none →
      _is_mounted env p = false) ∧
    (∀ lines, env.findmntAvail = false → env.mountinfo = some lines →
      lines.any (infoLineHit env (rstripSlash (env.realpath (pyStrip p)))) = false →
      _is_mounted env p = scanMounts env (rstripSlash (env.realpath (pyStrip p)))) := by
  refine ⟨fun hmi hfm => ?_, fun hfa hmi hmo => ?_, fun lines hfa hmi hany => ?_⟩
  · unfold _is_mounted
    simp [hmi, hfm]
  · unfold _is_mounted findmntHit
    simp [hfa, hmi]
  · unfold _is_mounted findmntHit
    simp [hfa, hmi, hany]

/-- Witness for the amended C3: with `findmnt` absent and both files
unreadable, the oracle answers `false` for any path. -/
theorem is_mounted_source_order_witness :
    _is_mounted
      { findmntAvail := false, findmntRun := fun _ => (1, ""),
        mountinfo := none, mounts := none, realpath := fun s => s } "/m" = false :=
  (is_mounted_source_order
    { findmntAvail := false, findmntRun := fun _ => (1, ""),
      mountinfo := none, mounts := none, realpath := fun s => s } "/m").2.1 rfl rfl rfl

/-- An element that does not satisfy the predicate survives `dropWhile`. -/
theorem mem_dropWhile_of_not (p : Char → Bool) (c : Char) (hc : p c = false) :
    ∀ l : List Char, c ∈ l → c ∈ l.dropWhile p := by
  intro l
  induction l with
  | nil => intro h; exact absurd h (List.not_mem_nil c)
  | cons a t ih =>
    intro h
    by_cases hpa : p a
    · rw [List.dropWhile_cons_of_pos hpa]
      rcases List.mem_cons.mp h with rfl | ht
      · rw [hpa] at hc; cases hc
      · exact ih ht
    · rw [List.dropWhile_cons_of_neg hpa]
      exact h

/-- A NUL byte anywhere in the input survives `pyStrip`. -/
theorem nul_mem_pyStrip (s : String) (h : '\x00' ∈ s.data) :
    '\x00' ∈ (pyStrip s).data := by
  unfold pyStrip
  have h1 : '\x00' ∈ s.data.dropWhile isPySpace :=
    mem_dropWhile_of_not isPySpace '\x00' (by decide) s.data h
  have h2 : '\x00' ∈ (s.data.dropWhile isPySpace).reverse := List.mem_reverse.mpr h1
  have h3 := mem_dropWhile_of_not isPySpace '\x00' (by decide) _ h2
  exact List.mem_reverse.mpr h3

/-- Claim C8: The Path Validator accepts a string iff, after trimming
surrounding whitespace, it is non-empty, begins with the platform's path
separator (POSIX absoluteness), and contains no NUL byte; in particular
whitespace-only strings and strings with an embedded NUL byte are
rejected.  (The validator is a pure function of the string — the
embedding performs no filesystem access by construction.) -/
theorem path_validator_accepts_iff :
    (∀ s : String, _is_abs_path s = true ↔
      ((pyStrip s).data ≠ [] ∧ (pyStrip s).data.head? = some '/' ∧
        '\x00' ∉ (pyStrip s).data)) ∧
    (∀ s : String, (∀ c ∈ s.data, isPySpace c = true) → _is_abs_path s = false) ∧
    (∀ s : String, '\x00' ∈ s.data → _is_abs_path s = false) := by
  have hiff : ∀ s : String, _is_abs_path s = true ↔
      ((pyStrip s).data ≠ [] ∧ (pyStrip s).data.head? = some '/' ∧
        '\x00' ∉ (pyStrip s).data) := by
    intro s
    unfold _is_abs_path
    simp [List.isEmpty_iff, List.contains, and_assoc]
  refine ⟨hiff, fun s hs => ?_, fun s hn => ?_⟩
  · have hdrop : s.data.dropWhile isPySpace = [] :=
      List.dropWhile_eq_nil_iff.mpr fun c hc => hs c hc
    have hstrip : (pyStrip s).data = [] := by
      unfold pyStrip
      rw [hdrop]
      simp
    rcases h : _is_abs_path s with _ | _
    · rfl
    · exact absurd hstrip ((hiff s).mp h).1
  · rcases h : _is_abs_path s with _ | _
    · rfl
    · exact absurd (nul_mem_pyStrip s hn) ((hiff s).mp h).2.2

/-- Witness for C8 at concrete inputs: a whitespace-only string and a
string with an embedded NUL byte are both rejected, and an absolute path
is accepted. -/
theorem path_validator_accepts_iff_witness :
    _is_abs_path " \t " = false ∧ _is_abs_path "/a\x00b" = false ∧
    _is_abs_path " /home/u/enc " = true := by
  refine ⟨path_validator_accepts_iff.2.1 " \t " (by decide),
    path_validator_accepts_iff.2.2 "/a\x00b" (by decide),
    (path_validator_accepts_iff.1 " /home/u/enc ").mpr (by decide)⟩

/-- Claim C9: Octal-escape decoding round-trips: decoding the 3-octal-digit
escape of any byte value yields that character (in particular `\040`
decodes to a space), and a mount-table line whose mount-point field
encodes a space as `\040` is recognized by the oracle when queried with
the literal (unescaped) path. -/
theorem octal_escape_roundtrip :
    (∀ n : Nat, n < 512 →
      _unescape_mount_path (String.mk ('\\' :: octEncode3 n)) = String.mk [Char.ofNat n]) ∧
    _unescape_mount_path "\\040" = " " ∧
    _is_mounted oC9 "/tmp/my mount" = true := by
  refine ⟨?_, by decide, by decide⟩
  set_option maxHeartbeats 4000000 in
  set_option maxRecDepth 4096 in
  decide

/-- Witness for C9's universally quantified part at the space character. -/
theorem octal_escape_roundtrip_witness :
    _unescape_mount_path (String.mk ('\\' :: octEncode3 32)) = String.mk [Char.ofNat 32] :=
  octal_escape_roundtrip.1 32 (by decide)

/-- An octal digit's code point lies between 48 and 55. -/
theorem isOctDigit_toNat (c : Char) (h : isOctDigit c = true) :
    48 ≤ c.toNat ∧ c.toNat ≤ 55 := by
  unfold isOctDigit at h
  simp only [Bool.and_eq_true, decide_eq_true_eq] at h
  exact ⟨Char.le_def.mp h.1, Char.le_def.mp h.2⟩

/-- Three octal digits encode a value of at most `0o777 = 511`. -/
theorem octVal_le (d1 d2 d3 : Char) (h1 : isOctDigit d1 = true) (h2 : isOctDigit d2 = true)
    (h3 : isOctDigit d3 = true) : octVal d1 d2 d3 ≤ 511 := by
  have a1 := isOctDigit_toNat d1 h1
  have a2 := isOctDigit_toNat d2 h2
  have a3 := isOctDigit_toNat d3 h3
  unfold octVal
  omega

/-- Claim C10: The octal-unescape function is total (it is a Lean function on
all strings); its `ValueError` fallback branch is unreachable — removing
it changes nothing, because three octal digits always encode a value
`chr` accepts — and any string containing no
backslash-plus-three-octal-digits sequence is returned unchanged. -/
theorem unescape_total_fallback_unreachable :
    (∀ l : List Char, unescapeAux l = unescapeAuxNF l) ∧
    (∀ s : String, hasOctSeq s.data = false → _unescape_mount_path s = s) := by
  have hnf : ∀ l : List Char, unescapeAux l = unescapeAuxNF l := by
    intro l
    induction l using unescapeAux.induct with
    | case1 d1 d2 d3 rest hoct hle ih =>
      rw [unescapeAux, unescapeAuxNF]
      simp [hoct, hle, ih]
    | case2 d1 d2 d3 rest hoct hle ih =>
      exfalso
      simp only [Bool.and_eq_true] at hoct
      have := octVal_le d1 d2 d3 hoct.1.1 hoct.1.2 hoct.2
      omega
    | case3 d1 d2 d3 rest hoct ih =>
      rw [unescapeAux, unescapeAuxNF]
      simp [hoct, ih]
    | case4 c rest h ih =>
      have e1 : unescapeAux (c :: rest) = c :: unescapeAux rest := by
        rw [unescapeAux]
        all_goals exact h
      have e2 : unescapeAuxNF (c :: rest) = c :: unescapeAuxNF rest := by
        rw [unescapeAuxNF]
        all_goals exact h
      rw [e1, e2, ih]
    | case5 => rfl
  refine ⟨hnf, fun s => ?_⟩
  suffices hid : ∀ l : List Char, hasOctSeq l = false → unescapeAux l = l by
    intro h
    unfold _unescape_mount_path
    rw [hid s.data h]
  intro l
  induction l using unescapeAux.induct with
  | case1 d1 d2 d3 rest hoct hle ih =>
    intro h
    rw [hasOctSeq] at h
    simp [hoct] at h
  | case2 d1 d2 d3 rest hoct hle ih =>
    intro h
    rw [hasOctSeq] at h
    simp [hoct] at h
  | case3 d1 d2 d3 rest hoct ih =>
    intro h
    rw [hasOctSeq] at h
    simp only [hoct, Bool.false_or] at h
    rw [unescapeAux]
    simp [hoct, ih h]
  | case4 c rest h ih =>
    intro hh
    have e1 : unescapeAux (c :: rest) = c :: unescapeAux rest := by
      rw [unescapeAux]
      all_goals exact h
    have e2 : hasOctSeq (c :: rest) = hasOctSeq rest := by
      rw [hasOctSeq]
      all_goals exact h
    rw [e2] at hh
    rw [e1, ih hh]
  | case5 =>
    intro h
    rfl

/-- Witness for C10's second part: a string with a backslash not followed
by three octal digits passes through unchanged. -/
theorem unescape_total_fallback_unreachable_witness :
    _unescape_mount_path "/a\\9b" = "/a\\9b" :=
  unescape_total_fallback_unreachable.2 "/a\\9b" (by decide)

/-! ## The duration grammar equivalence (C6) -/

/-- Splitting an append at a boundary where the predicate flips:
`takeWhile` keeps exactly the left part and `dropWhile` exactly the
right part. -/
theorem span_append (p : Char → Bool) (a b : List Char)
    (ha : ∀ c ∈ a, p c = true) (hb : ∀ c, b.head? = some c → p c = false) :
    (a ++ b).takeWhile p = a ∧ (a ++ b).dropWhile p = b := by
  induction a with
  | nil =>
    cases b with
    | nil => simp
    | cons x xs =>
      have hx := hb x rfl
      simp [List.takeWhile_cons, List.dropWhile_cons, hx]
  | cons x xs ih =>
    have hx : p x = true := ha x (List.mem_cons_self x xs)
    have ih2 := ih (fun c hc => ha c (List.mem_cons_of_mem x hc))
    simp [List.takeWhile_cons, List.dropWhile_cons, hx, ih2.1, ih2.2]

/-- A duration unit character is neither a digit nor a dot. -/
theorem isDurUnit_not_digit (u : Char) (hu : isDurUnit u = true) :
    u.isDigit = false ∧ u ≠ '.' := by
  unfold isDurUnit at hu
  have hu' : u = 's' ∨ u = 'm' ∨ u = 'h' ∨ u = 'd' := by
    simp only [Bool.or_eq_true, decide_eq_true_eq] at hu
    tauto
  obtain rfl | rfl | rfl | rfl := hu' <;> exact ⟨by decide, by decide⟩

/-- Soundness of the number matcher: a successful match splits the input
into a grammar-level `<number>` and the remainder. -/
theorem matchNum_sound (l r : List Char) (h : matchNum l = some r) :
    ∃ n, IsNum n ∧ l = n ++ r := by
  unfold matchNum at h
  by_cases hds : (l.takeWhile Char.isDigit).isEmpty
  · simp [hds] at h
  · simp only [hds, Bool.false_eq_true, if_false] at h
    have hsplit := List.takeWhile_append_dropWhile Char.isDigit l
    have hdigits : ∀ c ∈ l.takeWhile Char.isDigit, c.isDigit = true :=
      fun c hc => List.mem_takeWhile_imp hc
    have hne : l.takeWhile Char.isDigit ≠ [] := by
      simpa [List.isEmpty_iff] using hds
    rcases hrest : l.dropWhile Char.isDigit with _ | ⟨c, r2⟩
    · rw [hrest] at h hsplit
      simp only [Bool.false_eq_true, if_false, Option.some.injEq] at h
      refine ⟨l.takeWhile Char.isDigit, Or.inl ⟨hne, hdigits⟩, ?_⟩
      rw [← h]
      simpa using hsplit.symm
    · rw [hrest] at h hsplit
      by_cases hc : c = '.'
      · subst hc
        simp only [if_pos] at h
        by_cases hds2 : (r2.takeWhile Char.isDigit).isEmpty
        · simp [hds2] at h
        · simp only [hds2, Bool.false_eq_true, if_false, Option.some.injEq] at h
          have hsplit2 := List.takeWhile_append_dropWhile Char.isDigit r2
          have hdigits2 : ∀ c ∈ r2.takeWhile Char.isDigit, c.isDigit = true :=
            fun c hc => List.mem_takeWhile_imp hc
          have hne2 : r2.takeWhile Char.isDigit ≠ [] := by
            simpa [List.isEmpty_iff] using hds2
          refine ⟨l.takeWhile Char.isDigit ++ '.' :: r2.takeWhile Char.isDigit,
            Or.inr ⟨l.takeWhile Char.isDigit, r2.takeWhile Char.isDigit,
              hne, hne2, hdigits, hdigits2, rfl⟩, ?_⟩
          have hr2 : r2.takeWhile Char.isDigit ++ r = r2 := by
            rw [← h]
            exact hsplit2
          refine hsplit.symm.trans ?_
          generalize List.takeWhile Char.isDigit r2 = tw2 at hr2 ⊢
          rw [← hr2]
          simp
      · simp only [if_neg hc, Option.some.injEq] at h
        refine ⟨l.takeWhile Char.isDigit, Or.inl ⟨hne, hdigits⟩, ?_⟩
        refine hsplit.symm.trans ?_
        rw [h]

/-- Completeness of the number matcher: a grammar-level `<number>`
followed by a remainder whose head is neither a digit nor a dot is
matched, leaving exactly the remainder. -/
theorem matchNum_complete (n r : List Char) (hn : IsNum n)
    (hr : ∀ c, r.head? = some c → c.isDigit = false ∧ c ≠ '.') :
    matchNum (n ++ r) = some r := by
  unfold matchNum
  rcases hn with ⟨hne, hdig⟩ | ⟨a, b, ha, hb, hadig, hbdig, hnab⟩
  · have hspan := span_append Char.isDigit n r hdig (fun c hc => (hr c hc).1)
    rw [hspan.1, hspan.2]
    have : ¬n.isEmpty = true := by simpa [List.isEmpty_iff] using hne
    simp only [this, Bool.false_eq_true, if_false]
    rcases hrr : r with _ | ⟨c, r2⟩
    · rfl
    · have hc := hr c (by rw [hrr]; rfl)
      simp [hc.2]
  · subst hnab
    have hhead : ∀ c, ('.' :: (b ++ r)).head? = some c → Char.isDigit c = false := by
      intro c hc
      simp only [List.head?_cons, Option.some.injEq] at hc
      subst hc
      decide
    have hspan := span_append Char.isDigit a ('.' :: (b ++ r)) hadig hhead
    rw [List.append_assoc, List.cons_append]
    rw [hspan.1, hspan.2]
    have : ¬a.isEmpty = true := by simpa [List.isEmpty_iff] using ha
    simp only [this, Bool.false_eq_true, if_false, if_pos]
    have hspan2 := span_append Char.isDigit b r hbdig (fun c hc => (hr c hc).1)
    rw [hspan2.1, hspan2.2]
    have hb' : ¬b.isEmpty = true := by simpa [List.isEmpty_iff] using hb
    simp [hb']

/-- A grammar-level group is non-empty. -/
theorem IsGroup_ne_nil (g : List Char) (hg : IsGroup g) : g ≠ [] := by
  rcases hg with ⟨n, u, _, _, rfl⟩
  simp

/-- Soundness of the group matcher: a successful match splits the input
into a grammar-level group and the remainder. -/
theorem matchGroup_sound (l r : List Char) (h : matchGroup l = some r) :
    ∃ g, IsGroup g ∧ l = g ++ r := by
  unfold matchGroup at h
  rcases hm : matchNum l with _ | m
  · rw [hm] at h
    cases h
  · rw [hm] at h
    rcases m with _ | ⟨u, rr⟩
    · cases h
    · by_cases hu : isDurUnit u
      · simp only [hu, if_pos, Option.some.injEq] at h
        obtain ⟨n, hn, hl⟩ := matchNum_sound l (u :: rr) hm
        refine ⟨n ++ [u], ⟨n, u, hn, hu, rfl⟩, ?_⟩
        rw [hl, h]
        simp
      · simp [hu] at h

/-- Completeness of the group matcher: a grammar-level group followed by
anything is matched, leaving exactly the remainder. -/
theorem matchGroup_complete (g r : List Char) (hg : IsGroup g) :
    matchGroup (g ++ r) = some r := by
  rcases hg with ⟨n, u, hn, hu, rfl⟩
  unfold matchGroup
  have hnum : matchNum (n ++ (u :: r)) = some (u :: r) := by
    refine matchNum_complete n (u :: r) hn ?_
    intro c hc
    simp only [List.head?_cons, Option.some.injEq] at hc
    subst hc
    exact isDurUnit_not_digit u hu
  rw [List.append_assoc, List.cons_append, List.nil_append]
  rw [hnum]
  simp [hu]

/-- The fuel-indexed matcher consumes at least two characters per group,
so its successful remainder is shorter. -/
theorem matchGroup_length (l r : List Char) (h : matchGroup l = some r) :
    r.length < l.length := by
  obtain ⟨g, hg, rfl⟩ := matchGroup_sound l r h
  have := IsGroup_ne_nil g hg
  have : 0 < g.length := List.length_pos.mpr this
  simp [List.length_append]
  omega

/-- Soundness of the full matcher: acceptance decomposes the input into
one or more grammar-level groups. -/
theorem matchGroupsFuel_sound :
    ∀ (fuel : Nat) (l : List Char), matchGroupsFuel fuel l = true →
      ∃ gs : List (List Char), gs ≠ [] ∧ (∀ g ∈ gs, IsGroup g) ∧ l = gs.flatten := by
  intro fuel
  induction fuel with
  | zero => intro l h; cases h
  | succ f ih =>
    intro l h
    rw [matchGroupsFuel] at h
    rcases hm : matchGroup l with _ | m
    · rw [hm] at h; cases h
    · rw [hm] at h
      rcases m with _ | ⟨c, r⟩
      · obtain ⟨g, hg, hl⟩ := matchGroup_sound l [] hm
        exact ⟨[g], by simp, by simpa using hg, by simpa using hl⟩
      · obtain ⟨gs, hne, hgs, hr⟩ := ih (c :: r) h
        obtain ⟨g, hg, hl⟩ := matchGroup_sound l (c :: r) hm
        refine ⟨g :: gs, by simp, ?_, ?_⟩
        · intro g' hg'
          rcases List.mem_cons.mp hg' with rfl | hmem
          · exact hg
          · exact hgs g' hmem
        · rw [hl, hr]
          simp

/-- Completeness of the full matcher: the concatenation of one or more
grammar-level groups is accepted, given enough fuel. -/
theorem matchGroupsFuel_complete :
    ∀ (gs : List (List Char)), gs ≠ [] → (∀ g ∈ gs, IsGroup g) →
      ∀ fuel : Nat, gs.flatten.length ≤ fuel → matchGroupsFuel fuel gs.flatten = true := by
  intro gs
  induction gs with
  | nil => intro h; exact absurd rfl h
  | cons g gs' ih =>
    intro _ hgs fuel hfuel
    have hg : IsGroup g := hgs g (List.mem_cons_self g gs')
    have hglen : 0 < g.length := List.length_pos.mpr (IsGroup_ne_nil g hg)
    have hflat : (g :: gs').flatten = g ++ gs'.flatten := by simp
    rcases fuel with _ | f
    · rw [hflat] at hfuel
      simp only [List.length_append, Nat.le_zero, Nat.add_eq_zero] at hfuel
      omega
    · rw [hflat]
      rw [matchGroupsFuel, matchGroup_complete g gs'.flatten hg]
      rcases hgs' : gs'.flatten with _ | ⟨c, r⟩
      · rfl
      · show matchGroupsFuel f (c :: r) = true
        rw [← hgs']
        rcases gs' with _ | ⟨g', gs''⟩
        · simp at hgs'
        · refine ih (by simp) (fun g'' hg'' => hgs g'' (List.mem_cons_of_mem g hg'')) f ?_
          rw [hflat] at hfuel
          simp only [List.length_append] at hfuel
          omega

/-- Claim C6: The idle-timeout validator accepts exactly the strings of the
duration grammar — the literal `"0"`, or one or more `<number><unit>`
groups concatenated with no separator, with unit in `{s, m, h, d}` and
number an integer or decimal; in particular `"0"`, `"30m"`, `"2h45m"`,
`"1.5h"` are accepted and `"30"`, `"m30"`, `"-5m"` are rejected. -/
theorem duration_validator_grammar :
    (∀ s : String, _validate_duration s = true ↔ DurGrammar s) ∧
    _validate_duration "0" = true ∧ _validate_duration "30m" = true ∧
    _validate_duration "2h45m" = true ∧ _validate_duration "1.5h" = true ∧
    _validate_duration "30" = false ∧ _validate_duration "m30" = false ∧
    _validate_duration "-5m" = false := by
  refine ⟨fun s => ?_, by decide, by decide, by decide, by decide, by decide, by decide,
    by decide⟩
  unfold _validate_duration DurGrammar
  constructor
  · intro h
    rcases Bool.or_eq_true_iff.mp h with h0 | hm
    · exact Or.inl (beq_iff_eq.mp h0)
    · exact Or.inr (matchGroupsFuel_sound s.data.length s.data hm)
  · intro h
    rcases h with h0 | ⟨gs, hne, hgs, hflat⟩
    · subst h0
      decide
    · refine Bool.or_eq_true_iff.mpr (Or.inr ?_)
      rw [hflat]
      exact matchGroupsFuel_complete gs hne hgs gs.flatten.length le_rfl

end GocryptfsManager
